import Mathlib

/-!
Shallow embedding of the job-tracking front-end in src/src/App.tsx.

The file models:
* the JobStatus record and the React state it lives in,
* the three EventSource listeners registered by subscribeToProgress
  (progress, complete, error), including the fact that JSON.parse throws
  on malformed data before any later statement of the handler runs,
* the set of channels subscribeToProgress opens (an EventSource and its
  three listeners, nothing else),
* the success path of initiateDownload, which discards the cleanup
  closure returned by subscribeToProgress,
* toggleFileSelection on the selected-files set.

JavaScript strings are Lean String, numbers are Int, undefined or missing
fields are Option, and the truthiness tests of the source (data.downloadUrl,
data.error, data.jobId, event.data) are modelled by jsTruthy and jsOrStr:
both undefined (none) and the empty string are falsy.
-/

/-- Job status values, from the JobStatus interface in App.tsx. -/
inductive Status where
  | queued
  | processing
  | completed
  | failed
deriving DecidableEq, Repr

/-- The JobStatus record held in the currentJob React state. -/
structure JobStatus where
  jobId : String
  status : Status
  progress : Int
  filesCompleted : Int
  totalFiles : Int
  downloadUrl : Option String
  error : Option String
deriving DecidableEq, Repr

/-- Parsed JSON payload of a progress or complete event. -/
structure Payload where
  jobId : String
  status : Status
  progress : Int
  filesCompleted : Int
  totalFiles : Int
  downloadUrl : Option String
deriving DecidableEq, Repr

/-- Data carried by an error event: no data field at all (a transport-level
connection error), a data field whose JSON.parse throws, or a parsed payload
with optional jobId and error fields. -/
inductive ErrorEventData where
  | noData
  | malformed
  | payload (jobId : Option String) (error : Option String)
deriving DecidableEq, Repr

/-- An event delivered on the push channel. For progress and complete, none
models a data field that is not valid JSON (JSON.parse throws). -/
inductive SseEvent where
  | progress (data : Option Payload)
  | complete (data : Option Payload)
  | error (data : ErrorEventData)
deriving DecidableEq, Repr

/-- Side effects a handler performs besides updating the currentJob state:
scheduling the window.location.href redirect via setTimeout, and closing
the EventSource. -/
inductive Effect where
  | scheduleRedirect (delayMs : Nat) (url : String)
  | closeSource
deriving DecidableEq, Repr

/-- The state the handlers act on: the currentJob React state and whether
eventSource.close has been called. -/
structure ReconcilerState where
  currentJob : Option JobStatus
  sourceClosed : Bool
deriving DecidableEq, Repr

/-- Result of running one listener: the new state, the effects performed,
and whether the listener threw (an uncaught JSON.parse error). -/
structure StepResult where
  state : ReconcilerState
  effects : List Effect
  threw : Bool
deriving DecidableEq, Repr

/-- JavaScript truthiness of an optional string: undefined and the empty
string are falsy. -/
def jsTruthy : Option String → Bool
  | none => false
  | some s => if s = "" then false else true

/-- JavaScript v or fallback on an optional string field: undefined and
the empty string fall back to the default. -/
def jsOrStr (v : Option String) (fallback : String) : String :=
  match v with
  | none => fallback
  | some s => if s = "" then fallback else s

/-- The progress listener (App.tsx lines 116 to 134). JSON.parse throws
on malformed data before anything else runs; otherwise the full JobStatus
snapshot is rebuilt from the payload and stored, and when the payload says
completed with a truthy downloadUrl a redirect is scheduled after 500 ms.
The EventSource is not closed here. -/
def handleProgressEvent (data : Option Payload) (s : ReconcilerState) : StepResult :=
  match data with
  | none => { state := s, effects := [], threw := true }
  | some d =>
    let updatedJob : JobStatus :=
      { jobId := d.jobId, status := d.status, progress := d.progress,
        filesCompleted := d.filesCompleted, totalFiles := d.totalFiles,
        downloadUrl := d.downloadUrl, error := none }
    let s1 : ReconcilerState := { s with currentJob := some updatedJob }
    if d.status = Status.completed ∧ jsTruthy d.downloadUrl = true then
      { state := s1, effects := [Effect.scheduleRedirect 500 (d.downloadUrl.getD "")],
        threw := false }
    else
      { state := s1, effects := [], threw := false }

/-- The complete listener (App.tsx lines 136 to 155). JSON.parse throws on
malformed data before the close at line 146 runs; otherwise the snapshot is
replaced, the EventSource closed, and with a truthy downloadUrl a redirect
is scheduled after 500 ms. -/
def handleCompleteEvent (data : Option Payload) (s : ReconcilerState) : StepResult :=
  match data with
  | none => { state := s, effects := [], threw := true }
  | some d =>
    let updatedJob : JobStatus :=
      { jobId := d.jobId, status := d.status, progress := d.progress,
        filesCompleted := d.filesCompleted, totalFiles := d.totalFiles,
        downloadUrl := d.downloadUrl, error := none }
    let s1 : ReconcilerState := { currentJob := some updatedJob, sourceClosed := true }
    if jsTruthy d.downloadUrl = true then
      { state := s1,
        effects := [Effect.closeSource, Effect.scheduleRedirect 500 (d.downloadUrl.getD "")],
        threw := false }
    else
      { state := s1, effects := [Effect.closeSource], threw := false }

/-- The error listener (App.tsx lines 157 to 181). With a truthy data field
the payload is parsed (throwing on malformed data before the close at line
180 runs) and a failed snapshot with zeroed counters is stored; with no data
the connection-error branch stores a failed snapshot with the message
Connection error. Both non-throwing branches close the EventSource. -/
def handleErrorEvent (jobId : String) (data : ErrorEventData) (s : ReconcilerState) :
    StepResult :=
  match data with
  | ErrorEventData.malformed => { state := s, effects := [], threw := true }
  | ErrorEventData.noData =>
    { state :=
        { currentJob := some
            { jobId := jobId, status := Status.failed, progress := 0,
              filesCompleted := 0, totalFiles := 0, downloadUrl := none,
              error := some "Connection error" },
          sourceClosed := true },
      effects := [Effect.closeSource], threw := false }
  | ErrorEventData.payload jf ef =>
    { state :=
        { currentJob := some
            { jobId := jsOrStr jf jobId, status := Status.failed, progress := 0,
              filesCompleted := 0, totalFiles := 0, downloadUrl := none,
              error := some (jsOrStr ef "Download failed") },
          sourceClosed := true },
      effects := [Effect.closeSource], threw := false }

/-- Dispatch one push-channel event to its listener. A closed EventSource
delivers no further events, so events arriving after close are ignored. -/
def stepEvent (jobId : String) (s : ReconcilerState) (e : SseEvent) : StepResult :=
  if s.sourceClosed = true then { state := s, effects := [], threw := false }
  else
    match e with
    | SseEvent.progress d => handleProgressEvent d s
    | SseEvent.complete d => handleCompleteEvent d s
    | SseEvent.error d => handleErrorEvent jobId d s

/-- Run a sequence of push-channel events in arrival order, accumulating
the performed effects. -/
def runEvents (jobId : String) : ReconcilerState → List SseEvent → ReconcilerState × List Effect
  | s, [] => (s, [])
  | s, e :: rest =>
    let r := stepEvent jobId s e
    let p := runEvents jobId r.state rest
    (p.1, r.effects ++ p.2)

/-- Recognize a scheduled redirect among effects. -/
def isRedirect : Effect → Bool
  | Effect.scheduleRedirect _ _ => true
  | Effect.closeSource => false

/-- Number of redirects scheduled by a list of effects. -/
def redirects (effs : List Effect) : Nat :=
  effs.countP isRedirect

/-- Channel-setup actions a subscription routine can take. -/
inductive SetupEffect where
  | openEventSource (url : String)
  | addListener (eventName : String)
  | startPollInterval (periodMs : Nat) (url : String)
  | closeEventSource
deriving DecidableEq, Repr

/-- The channels subscribeToProgress opens (App.tsx lines 113 to 187): one
EventSource on API_URL concatenated with subscribeUrl, and three listeners.
No interval timer and no status-endpoint request is ever created. -/
def subscribeToProgressSetup (apiUrl subscribeUrl : String) : List SetupEffect :=
  [SetupEffect.openEventSource (apiUrl ++ subscribeUrl),
   SetupEffect.addListener "progress",
   SetupEffect.addListener "complete",
   SetupEffect.addListener "error"]

/-- The cleanup closure returned by subscribeToProgress (App.tsx lines 184
to 186): it would close the EventSource if it were ever invoked. -/
def subscribeToProgressCleanup : List SetupEffect :=
  [SetupEffect.closeEventSource]

/-- Recognize the start of a poll interval among setup actions. -/
def isPollStart : SetupEffect → Bool
  | SetupEffect.startPollInterval _ _ => true
  | _ => false

/-- Successful response of POST /v1/download/initiate. -/
structure InitiateResponse where
  jobId : String
  status : Status
  totalFiles : Int
  subscribeUrl : String
deriving DecidableEq, Repr

/-- Actions taken by initiateDownload at the app level. -/
inductive AppEffect where
  | setError (e : Option String)
  | setCurrentJob (j : Option JobStatus)
  | postInitiate (fileKeys : List String)
  | setup (e : SetupEffect)
  | clearSelection
deriving DecidableEq, Repr

/-- The success path of initiateDownload (App.tsx lines 72 to 111): clear
the error, clear currentJob, POST the file keys, store the initial snapshot,
call subscribeToProgress (whose returned cleanup closure is discarded), and
clear the selection. Nothing here closes a previous EventSource. -/
def initiateDownload (apiUrl : String) (fileKeys : List String) (resp : InitiateResponse) :
    List AppEffect :=
  [AppEffect.setError none,
   AppEffect.setCurrentJob none,
   AppEffect.postInitiate fileKeys,
   AppEffect.setCurrentJob (some
     { jobId := resp.jobId, status := resp.status, progress := 0,
       filesCompleted := 0, totalFiles := resp.totalFiles,
       downloadUrl := none, error := none })]
  ++ (subscribeToProgressSetup apiUrl resp.subscribeUrl).map AppEffect.setup
  ++ [AppEffect.clearSelection]

/-- Recognize the closing of an EventSource among app-level actions. -/
def isSetupClose : AppEffect → Bool
  | AppEffect.setup SetupEffect.closeEventSource => true
  | _ => false

/-- toggleFileSelection (App.tsx lines 54 to 62): delete the key from the
selected set if present, insert it otherwise. -/
def toggleFileSelection (selectedFiles : Finset String) (key : String) : Finset String :=
  if key ∈ selectedFiles then selectedFiles.erase key else insert key selectedFiles

/-- A push-channel event whose data field is present but not valid JSON. -/
def isMalformedEvent : SseEvent → Bool
  | SseEvent.progress none => true
  | SseEvent.complete none => true
  | SseEvent.error ErrorEventData.malformed => true
  | _ => false

/-- The JobStatus snapshot a single valid event produces, as a function of
the arriving message alone (none for a malformed event). Used to state that
each applied update fully determines the displayed state. -/
def renderEvent (jobId : String) : SseEvent → Option JobStatus
  | SseEvent.progress (some d) => some
      { jobId := d.jobId, status := d.status, progress := d.progress,
        filesCompleted := d.filesCompleted, totalFiles := d.totalFiles,
        downloadUrl := d.downloadUrl, error := none }
  | SseEvent.complete (some d) => some
      { jobId := d.jobId, status := d.status, progress := d.progress,
        filesCompleted := d.filesCompleted, totalFiles := d.totalFiles,
        downloadUrl := d.downloadUrl, error := none }
  | SseEvent.error ErrorEventData.noData => some
      { jobId := jobId, status := Status.failed, progress := 0,
        filesCompleted := 0, totalFiles := 0, downloadUrl := none,
        error := some "Connection error" }
  | SseEvent.error (ErrorEventData.payload jf ef) => some
      { jobId := jsOrStr jf jobId, status := Status.failed, progress := 0,
        filesCompleted := 0, totalFiles := 0, downloadUrl := none,
        error := some (jsOrStr ef "Download failed") }
  | _ => none

/-- Payload reports completed with a truthy downloadUrl (the redirect
condition of the progress listener, App.tsx line 129). -/
def completedWithUrl (d : Payload) : Bool :=
  if d.status = Status.completed ∧ jsTruthy d.downloadUrl = true then true else false

/-- Number of redirects the handlers schedule on an event sequence: one per
handled update that reports completed with a truthy downloadUrl, where a
valid complete event and a non-throwing error event close the source and
stop further handling. Stated independently of the machine to compare
against it. -/
def expectedRedirects : Bool → List SseEvent → Nat
  | _, [] => 0
  | true, _ :: rest => expectedRedirects true rest
  | false, SseEvent.progress none :: rest => expectedRedirects false rest
  | false, SseEvent.progress (some d) :: rest =>
      (if completedWithUrl d then 1 else 0) + expectedRedirects false rest
  | false, SseEvent.complete none :: rest => expectedRedirects false rest
  | false, SseEvent.complete (some d) :: rest =>
      (if jsTruthy d.downloadUrl then 1 else 0) + expectedRedirects true rest
  | false, SseEvent.error ErrorEventData.malformed :: rest => expectedRedirects false rest
  | false, SseEvent.error ErrorEventData.noData :: rest => expectedRedirects true rest
  | false, SseEvent.error (ErrorEventData.payload _ _) :: rest => expectedRedirects true rest

/-- A reconciler state with an open EventSource and no job displayed yet. -/
def openState : ReconcilerState :=
  { currentJob := none, sourceClosed := false }

/-- A payload reporting completion with a download URL. -/
def completedPayload : Payload :=
  { jobId := "j1", status := Status.completed, progress := 100,
    filesCompleted := 1, totalFiles := 1, downloadUrl := some "https://x/y" }

/-- A payload reporting mid-job progress. -/
def processingPayload : Payload :=
  { jobId := "j1", status := Status.processing, progress := 40,
    filesCompleted := 0, totalFiles := 1, downloadUrl := none }

/-- Helper: redirect count distributes over appended effect lists. -/
theorem redirects_append (a b : List Effect) :
    redirects (a ++ b) = redirects a + redirects b := by
  simp [redirects, List.countP_append]

/-- C2: the claim asserts a fixed-interval 2-second poll of the status
endpoint runs alongside the push listener. At a concrete start of the
reconciler, the setup performed by subscribeToProgress starts no poll
interval at all. -/
theorem c2_counterexample :
    (subscribeToProgressSetup "http://localhost:3000" "/v1/download/subscribe/j1").countP
      isPollStart = 0 := by
  decide

/-- C2 (amended): when the reconciler is started it opens the push-channel
EventSource on the concatenation of the API base and the subscribe URL and
registers the progress, complete and error listeners; it starts no poll
interval, so the push channel is the only update source. -/
theorem c2_push_channel_only (apiUrl subscribeUrl : String) :
    SetupEffect.openEventSource (apiUrl ++ subscribeUrl) ∈
      subscribeToProgressSetup apiUrl subscribeUrl ∧
    SetupEffect.addListener "progress" ∈ subscribeToProgressSetup apiUrl subscribeUrl ∧
    SetupEffect.addListener "complete" ∈ subscribeToProgressSetup apiUrl subscribeUrl ∧
    SetupEffect.addListener "error" ∈ subscribeToProgressSetup apiUrl subscribeUrl ∧
    (subscribeToProgressSetup apiUrl subscribeUrl).countP isPollStart = 0 := by
  refine ⟨?_, ?_, ?_, ?_, ?_⟩ <;> simp [subscribeToProgressSetup, isPollStart]

/-- C3: the claim asserts a malformed event payload does not throw an
unhandled error. On a progress event with malformed data, the handler
rethrows the JSON.parse error uncaught. -/
theorem c3_counterexample :
    (stepEvent "j1" openState (SseEvent.progress none)).threw = true := by
  decide

/-- C3 (amended): a push-channel event whose data is not valid JSON leaves
the current JobState unchanged, performs no effect and does not close the
listener, but the JSON.parse error propagates uncaught out of the handler
rather than being caught and logged. -/
theorem c3_malformed_dropped (jobId : String) (s : ReconcilerState) (e : SseEvent)
    (hopen : s.sourceClosed = false) (hm : isMalformedEvent e = true) :
    (stepEvent jobId s e).state = s ∧ (stepEvent jobId s e).effects = [] ∧
    (stepEvent jobId s e).threw = true := by
  have hs : ¬ s.sourceClosed = true := by simp [hopen]
  cases e with
  | progress d =>
    cases d with
    | none => simp [stepEvent, hs, handleProgressEvent]
    | some p => simp [isMalformedEvent] at hm
  | complete d =>
    cases d with
    | none => simp [stepEvent, hs, handleCompleteEvent]
    | some p => simp [isMalformedEvent] at hm
  | error d =>
    cases d with
    | malformed => simp [stepEvent, hs, handleErrorEvent]
    | noData => simp [isMalformedEvent] at hm
    | payload jf ef => simp [isMalformedEvent] at hm

/-- C3 witness: the amended statement at a concrete malformed event. -/
theorem c3_witness :
    openState.sourceClosed = false ∧
    isMalformedEvent (SseEvent.complete none) = true ∧
    ((stepEvent "j1" openState (SseEvent.complete none)).state = openState ∧
     (stepEvent "j1" openState (SseEvent.complete none)).effects = [] ∧
     (stepEvent "j1" openState (SseEvent.complete none)).threw = true) :=
  ⟨by decide, by decide,
   c3_malformed_dropped "j1" openState (SseEvent.complete none) (by decide) (by decide)⟩

/-- C4: the claim asserts a transport-level push-channel error without a
payload never sets the job status to failed. At a concrete such event the
handler stores a failed JobState. -/
theorem c4_counterexample :
    (stepEvent "j1" openState (SseEvent.error ErrorEventData.noData)).state.currentJob =
      some { jobId := "j1", status := Status.failed, progress := 0,
             filesCompleted := 0, totalFiles := 0, downloadUrl := none,
             error := some "Connection error" } := by
  decide

/-- C4 (amended): a transport-level error event with no data is not treated
as transient: the handler marks the job failed with the message Connection
error and zeroed counters, and closes the push listener; there is no poll
channel to fall back on. -/
theorem c4_disconnect_marks_failed (jobId : String) (s : ReconcilerState)
    (hopen : s.sourceClosed = false) :
    (stepEvent jobId s (SseEvent.error ErrorEventData.noData)).state.currentJob =
      some { jobId := jobId, status := Status.failed, progress := 0,
             filesCompleted := 0, totalFiles := 0, downloadUrl := none,
             error := some "Connection error" } ∧
    (stepEvent jobId s (SseEvent.error ErrorEventData.noData)).state.sourceClosed = true ∧
    (stepEvent jobId s (SseEvent.error ErrorEventData.noData)).effects =
      [Effect.closeSource] := by
  simp [stepEvent, hopen, handleErrorEvent]

/-- C4 witness: the amended statement at a concrete open state. -/
theorem c4_witness :
    openState.sourceClosed = false ∧
    ((stepEvent "j1" openState (SseEvent.error ErrorEventData.noData)).state.currentJob =
      some { jobId := "j1", status := Status.failed, progress := 0,
             filesCompleted := 0, totalFiles := 0, downloadUrl := none,
             error := some "Connection error" } ∧
     (stepEvent "j1" openState (SseEvent.error ErrorEventData.noData)).state.sourceClosed =
       true ∧
     (stepEvent "j1" openState (SseEvent.error ErrorEventData.noData)).effects =
       [Effect.closeSource]) :=
  ⟨by decide, c4_disconnect_marks_failed "j1" openState (by decide)⟩

/-- C10: toggling a file key is an involution on the selection set: one
toggle flips exactly that key membership (adds it when absent, removes it
when present, leaves every other key alone), and a second toggle restores
the original set. -/
theorem c10_toggle_involution (key : String) (s : Finset String) :
    (key ∈ toggleFileSelection s key ↔ key ∉ s) ∧
    (∀ k, k ≠ key → (k ∈ toggleFileSelection s key ↔ k ∈ s)) ∧
    toggleFileSelection (toggleFileSelection s key) key = s := by
  unfold toggleFileSelection
  by_cases h : key ∈ s
  · refine ⟨by simp [h], ?_, ?_⟩
    · intro k hk
      simp [h, Finset.mem_erase, hk]
    · simp [h, Finset.insert_erase h]
  · refine ⟨by simp [h], ?_, ?_⟩
    · intro k hk
      simp [h, Finset.mem_insert, hk]
    · simp [h, Finset.erase_insert h]

/-- C10 witness: the toggle statement at a concrete key and selection. -/
theorem c10_witness :
    ("b.txt" ∈ toggleFileSelection {"a.txt"} "b.txt" ↔ "b.txt" ∉ ({"a.txt"} : Finset String)) ∧
    (∀ k, k ≠ "b.txt" →
      (k ∈ toggleFileSelection {"a.txt"} "b.txt" ↔ k ∈ ({"a.txt"} : Finset String))) ∧
    toggleFileSelection (toggleFileSelection {"a.txt"} "b.txt") "b.txt" = {"a.txt"} :=
  c10_toggle_involution "b.txt" {"a.txt"}

/-- C6: every update handled without throwing replaces the displayed
JobState with a snapshot determined by the arriving message alone,
independently of the previous state: last write wins, with no field-wise
merge. -/
theorem c6_last_write_wins (jobId : String) (s : ReconcilerState) (e : SseEvent)
    (hopen : s.sourceClosed = false)
    (hok : (stepEvent jobId s e).threw = false) :
    (stepEvent jobId s e).state.currentJob = renderEvent jobId e := by
  have hs : ¬ s.sourceClosed = true := by simp [hopen]
  cases e with
  | progress d =>
    cases d with
    | none => simp [stepEvent, hs, handleProgressEvent] at hok
    | some p =>
      by_cases hc : p.status = Status.completed ∧ jsTruthy p.downloadUrl = true
      · simp [stepEvent, hs, handleProgressEvent, hc, renderEvent]
      · simp [stepEvent, hs, handleProgressEvent, hc, renderEvent]
  | complete d =>
    cases d with
    | none => simp [stepEvent, hs, handleCompleteEvent] at hok
    | some p =>
      by_cases hc : jsTruthy p.downloadUrl = true
      · simp [stepEvent, hs, handleCompleteEvent, hc, renderEvent]
      · simp [stepEvent, hs, handleCompleteEvent, hc, renderEvent]
  | error d =>
    cases d with
    | malformed => simp [stepEvent, hs, handleErrorEvent] at hok
    | noData => simp [stepEvent, hs, handleErrorEvent, renderEvent]
    | payload jf ef => simp [stepEvent, hs, handleErrorEvent, renderEvent]

/-- C6 witness: a concrete progress update fully determines the displayed
snapshot. -/
theorem c6_witness :
    openState.sourceClosed = false ∧
    (stepEvent "j1" openState (SseEvent.progress (some processingPayload))).threw = false ∧
    (stepEvent "j1" openState (SseEvent.progress (some processingPayload))).state.currentJob =
      renderEvent "j1" (SseEvent.progress (some processingPayload)) :=
  ⟨by decide, by decide,
   c6_last_write_wins "j1" openState (SseEvent.progress (some processingPayload))
     (by decide) (by decide)⟩

/-- C7: the claim asserts every completed-with-url update closes the push
listener. A progress event reporting completed with a download URL
schedules the redirect but leaves the EventSource open. -/
theorem c7_counterexample :
    (stepEvent "j1" openState (SseEvent.progress (some completedPayload))).state.sourceClosed =
      false ∧
    Effect.closeSource ∉
      (stepEvent "j1" openState (SseEvent.progress (some completedPayload))).effects ∧
    redirects (stepEvent "j1" openState (SseEvent.progress (some completedPayload))).effects =
      1 := by
  refine ⟨by decide, by decide, by decide⟩

/-- C7 (amended): an update reporting completed with a truthy downloadUrl
schedules the redirect after a fixed 500 ms delay on either event kind, but
only the complete event closes the push listener; a completed progress
event leaves it open, and there is no poll interval to stop. -/
theorem c7_terminal_update_effects (jobId : String) (s : ReconcilerState) (d : Payload)
    (hopen : s.sourceClosed = false) (hc : d.status = Status.completed)
    (hu : jsTruthy d.downloadUrl = true) :
    (stepEvent jobId s (SseEvent.progress (some d))).effects =
      [Effect.scheduleRedirect 500 (d.downloadUrl.getD "")] ∧
    (stepEvent jobId s (SseEvent.progress (some d))).state.sourceClosed = false ∧
    (stepEvent jobId s (SseEvent.complete (some d))).effects =
      [Effect.closeSource, Effect.scheduleRedirect 500 (d.downloadUrl.getD "")] ∧
    (stepEvent jobId s (SseEvent.complete (some d))).state.sourceClosed = true := by
  have hs : ¬ s.sourceClosed = true := by simp [hopen]
  refine ⟨?_, ?_, ?_, ?_⟩
  · simp [stepEvent, hs, handleProgressEvent, hc, hu]
  · simp [stepEvent, hs, handleProgressEvent, hc, hu, hopen]
  · simp [stepEvent, hs, handleCompleteEvent, hu]
  · simp [stepEvent, hs, handleCompleteEvent, hu]

/-- C7 witness: the amended statement at the concrete completed payload. -/
theorem c7_witness :
    openState.sourceClosed = false ∧
    completedPayload.status = Status.completed ∧
    jsTruthy completedPayload.downloadUrl = true ∧
    ((stepEvent "j1" openState (SseEvent.progress (some completedPayload))).effects =
      [Effect.scheduleRedirect 500 (completedPayload.downloadUrl.getD "")] ∧
     (stepEvent "j1" openState (SseEvent.progress (some completedPayload))).state.sourceClosed =
       false ∧
     (stepEvent "j1" openState (SseEvent.complete (some completedPayload))).effects =
       [Effect.closeSource, Effect.scheduleRedirect 500 (completedPayload.downloadUrl.getD "")] ∧
     (stepEvent "j1" openState (SseEvent.complete (some completedPayload))).state.sourceClosed =
       true) :=
  ⟨by decide, by decide, by decide,
   c7_terminal_update_effects "j1" openState completedPayload (by decide) (by decide)
     (by decide)⟩

/-- C8: an error event whose payload is absent, or carries no usable error
message, yields a failed JobState with a generic non-empty message
(Connection error, or Download failed), and schedules no redirect. -/
theorem c8_generic_failure_message (jobId : String) (s : ReconcilerState)
    (jf ef : Option String) (hopen : s.sourceClosed = false)
    (hef : ef = none ∨ ef = some "") :
    (∃ jA, (stepEvent jobId s (SseEvent.error ErrorEventData.noData)).state.currentJob =
        some jA ∧ jA.status = Status.failed ∧ jA.error = some "Connection error") ∧
    redirects (stepEvent jobId s (SseEvent.error ErrorEventData.noData)).effects = 0 ∧
    (∃ jB, (stepEvent jobId s (SseEvent.error (ErrorEventData.payload jf ef))).state.currentJob =
        some jB ∧ jB.status = Status.failed ∧ jB.error = some "Download failed") ∧
    redirects (stepEvent jobId s (SseEvent.error (ErrorEventData.payload jf ef))).effects = 0 ∧
    "Connection error" ≠ "" ∧ "Download failed" ≠ "" := by
  have hs : ¬ s.sourceClosed = true := by simp [hopen]
  have hor : jsOrStr ef "Download failed" = "Download failed" := by
    rcases hef with h | h <;> simp [jsOrStr, h]
  refine ⟨?_, ?_, ?_, ?_, by decide, by decide⟩
  · refine ⟨⟨jobId, Status.failed, 0, 0, 0, none, some "Connection error"⟩, ?_, rfl, rfl⟩
    simp [stepEvent, hs, handleErrorEvent]
  · simp [stepEvent, hs, handleErrorEvent, redirects, isRedirect]
  · refine ⟨⟨jsOrStr jf jobId, Status.failed, 0, 0, 0, none, some "Download failed"⟩,
      ?_, rfl, rfl⟩
    simp [stepEvent, hs, handleErrorEvent, hor]
  · simp [stepEvent, hs, handleErrorEvent, redirects, isRedirect]

/-- C8 witness: the statement at a concrete error payload with no error
field. -/
theorem c8_witness :
    openState.sourceClosed = false ∧
    ((none : Option String) = none ∨ (none : Option String) = some "") ∧
    ((∃ jA, (stepEvent "j1" openState (SseEvent.error ErrorEventData.noData)).state.currentJob =
        some jA ∧ jA.status = Status.failed ∧ jA.error = some "Connection error") ∧
     redirects (stepEvent "j1" openState (SseEvent.error ErrorEventData.noData)).effects = 0 ∧
     (∃ jB, (stepEvent "j1" openState
        (SseEvent.error (ErrorEventData.payload (some "j1") none))).state.currentJob =
        some jB ∧ jB.status = Status.failed ∧ jB.error = some "Download failed") ∧
     redirects (stepEvent "j1" openState
        (SseEvent.error (ErrorEventData.payload (some "j1") none))).effects = 0 ∧
     "Connection error" ≠ "" ∧ "Download failed" ≠ "") :=
  ⟨by decide, Or.inl rfl,
   c8_generic_failure_message "j1" openState (some "j1") none (by decide) (Or.inl rfl)⟩

/-- C9: every error event handled without throwing, with or without a
payload, stores a failed JobState whose progress, filesCompleted and
totalFiles are all zero, discarding the previously displayed counters. -/
theorem c9_error_resets_counters (jobId : String) (s : ReconcilerState) (d : ErrorEventData)
    (hopen : s.sourceClosed = false)
    (hok : (stepEvent jobId s (SseEvent.error d)).threw = false) :
    ∃ j, (stepEvent jobId s (SseEvent.error d)).state.currentJob = some j ∧
      j.status = Status.failed ∧ j.progress = 0 ∧ j.filesCompleted = 0 ∧
      j.totalFiles = 0 := by
  have hs : ¬ s.sourceClosed = true := by simp [hopen]
  cases d with
  | malformed => simp [stepEvent, hs, handleErrorEvent] at hok
  | noData =>
    refine ⟨⟨jobId, Status.failed, 0, 0, 0, none, some "Connection error"⟩,
      ?_, rfl, rfl, rfl, rfl⟩
    simp [stepEvent, hs, handleErrorEvent]
  | payload jf ef =>
    refine ⟨⟨jsOrStr jf jobId, Status.failed, 0, 0, 0, none,
      some (jsOrStr ef "Download failed")⟩, ?_, rfl, rfl, rfl, rfl⟩
    simp [stepEvent, hs, handleErrorEvent]

/-- C9 witness: the statement at a concrete error event with a payload,
starting from a state that displays nonzero counters. -/
theorem c9_witness :
    ({ currentJob := some
        { jobId := "j1", status := Status.processing, progress := 40,
          filesCompleted := 1, totalFiles := 3, downloadUrl := none, error := none },
       sourceClosed := false } : ReconcilerState).sourceClosed = false ∧
    (stepEvent "j1"
      { currentJob := some
          { jobId := "j1", status := Status.processing, progress := 40,
            filesCompleted := 1, totalFiles := 3, downloadUrl := none, error := none },
        sourceClosed := false }
      (SseEvent.error (ErrorEventData.payload none (some "boom")))).threw = false ∧
    (∃ j, (stepEvent "j1"
      { currentJob := some
          { jobId := "j1", status := Status.processing, progress := 40,
            filesCompleted := 1, totalFiles := 3, downloadUrl := none, error := none },
        sourceClosed := false }
      (SseEvent.error (ErrorEventData.payload none (some "boom")))).state.currentJob =
        some j ∧ j.status = Status.failed ∧ j.progress = 0 ∧ j.filesCompleted = 0 ∧
        j.totalFiles = 0) :=
  ⟨by decide, by decide,
   c9_error_resets_counters "j1"
     { currentJob := some
         { jobId := "j1", status := Status.processing, progress := 40,
           filesCompleted := 1, totalFiles := 3, downloadUrl := none, error := none },
       sourceClosed := false }
     (ErrorEventData.payload none (some "boom")) (by decide) (by decide)⟩

/-- C1: the claim asserts the redirect fires exactly once even when more
than one update reports completed with a download URL. A progress event
reporting completion followed by a complete event schedules two redirects:
there is no deduplication guard and the progress listener does not close
the source. -/
theorem c1_counterexample :
    redirects (runEvents "j1" openState
      [SseEvent.progress (some completedPayload),
       SseEvent.complete (some completedPayload)]).2 = 2 := by
  decide

/-- C1 (amended): the handlers schedule one redirect per handled update
that reports completed with a truthy downloadUrl, until a valid complete
event or a non-throwing error event closes the source; nothing deduplicates
redirects across updates, so several completion reports each fire their
own redirect. -/
theorem c1_redirect_per_completed_update (jobId : String) (s : ReconcilerState)
    (evts : List SseEvent) :
    redirects (runEvents jobId s evts).2 = expectedRedirects s.sourceClosed evts := by
  induction evts generalizing s with
  | nil => simp [runEvents, redirects, expectedRedirects]
  | cons e rest ih =>
    cases hclosed : s.sourceClosed with
    | true =>
      have hstep : stepEvent jobId s e = { state := s, effects := [], threw := false } := by
        simp [stepEvent, hclosed]
      simp only [runEvents, hstep, List.nil_append]
      rw [ih s, hclosed]
      cases e <;> simp [expectedRedirects]
    | false =>
      have hs : ¬ s.sourceClosed = true := by simp [hclosed]
      cases e with
      | progress d =>
        cases d with
        | none =>
          simp [runEvents, stepEvent, hclosed, handleProgressEvent,
            expectedRedirects, ih s]
        | some p =>
          by_cases hc : p.status = Status.completed ∧ jsTruthy p.downloadUrl = true
          · simp only [runEvents, stepEvent, hs, if_neg, handleProgressEvent, hc, if_pos]
            rw [redirects_append, ih]
            simp [expectedRedirects, completedWithUrl, hc, hclosed, redirects, isRedirect]
          · simp only [runEvents, stepEvent, hs, if_neg, handleProgressEvent, hc, if_pos]
            rw [redirects_append, ih]
            simp [expectedRedirects, completedWithUrl, hc, hclosed, redirects, isRedirect]
      | complete d =>
        cases d with
        | none =>
          simp [runEvents, stepEvent, hclosed, handleCompleteEvent,
            expectedRedirects, ih s]
        | some p =>
          by_cases hc : jsTruthy p.downloadUrl = true
          · simp only [runEvents, stepEvent, hs, if_neg, handleCompleteEvent, hc, if_pos]
            rw [redirects_append, ih]
            simp [expectedRedirects, hc, redirects, isRedirect]
          · simp only [runEvents, stepEvent, hs, if_neg, handleCompleteEvent, hc, if_pos]
            rw [redirects_append, ih]
            simp [expectedRedirects, hc, redirects, isRedirect]
      | error d =>
        cases d with
        | noData =>
          simp only [runEvents, stepEvent, hs, if_neg, handleErrorEvent]
          rw [redirects_append, ih]
          simp [expectedRedirects, redirects, isRedirect]
        | malformed =>
          simp [runEvents, stepEvent, hclosed, handleErrorEvent,
            expectedRedirects, ih s]
        | payload jf ef =>
          simp only [runEvents, stepEvent, hs, if_neg, handleErrorEvent]
          rw [redirects_append, ih]
          simp [expectedRedirects, redirects, isRedirect]

/-- C5 supporting data: the initiate response for a second job. -/
def respJob2 : InitiateResponse :=
  { jobId := "j2", status := Status.queued, totalFiles := 1,
    subscribeUrl := "/v1/download/subscribe/j2" }

/-- C5 supporting data: the snapshot initiateDownload stores for the second
job. -/
def job2Init : JobStatus :=
  { jobId := "j2", status := Status.queued, progress := 0, filesCompleted := 0,
    totalFiles := 1, downloadUrl := none, error := none }

/-- C5: the claim says starting a new job closes the channels of the
previous job and no further mutation comes from them. The success path of
initiateDownload contains no close of any EventSource (the cleanup closure
subscribeToProgressCleanup returned by subscribeToProgress is discarded),
so the first job EventSource is still open after the second job starts,
and a late progress event delivered on it overwrites the displayed state
of the new job. -/
theorem c5_stale_channel_mutates_state :
    (initiateDownload "http://localhost:3000" ["b.txt"] respJob2).countP isSetupClose = 0 ∧
    subscribeToProgressCleanup = [SetupEffect.closeEventSource] ∧
    (stepEvent "j1" { currentJob := some job2Init, sourceClosed := false }
      (SseEvent.progress (some processingPayload))).state.currentJob ≠ some job2Init ∧
    (stepEvent "j1" { currentJob := some job2Init, sourceClosed := false }
      (SseEvent.progress (some processingPayload))).state.currentJob =
      some { jobId := "j1", status := Status.processing, progress := 40,
             filesCompleted := 0, totalFiles := 1, downloadUrl := none,
             error := none } := by
  refine ⟨by decide, rfl, by decide, by decide⟩
